import Mathlib

/-!
Verification of the conversation router (`src/api/routers/conversations.py`).

The router exposes five stateless HTTP operations over an external
conversation service.  We embed each handler as a Lean function that takes
the service it delegates to as an explicit function argument (an oracle),
the parsed request data, and — where the Python handler declares one — the
authenticated user.  A service call in Python can return normally, raise a
`fastapi.HTTPException`, or raise any other exception; we model these three
outcomes with `PyResult`.  Each handler returns its own outcome paired with
a `Bool` recording whether the service function was actually invoked, so
that "the service is never invoked" is a statement about the handler's
value, not a meta-level remark.
-/

/-- A dynamically typed Python value, covering the shapes relevant to the
router: `None`, booleans, integers, strings, lists and dicts.  Needed
because the handler for "get conversation by id" tests the service result
with Python truthiness (`if not conversation`). -/
inductive PyValue where
  | none
  | bool (b : Bool)
  | int (n : Int)
  | str (s : String)
  | list (xs : List PyValue)
  | dict (fields : List (String × PyValue))

/-- Python truthiness of a value, as used by `if not conversation` in
`get_conversation_by_id`: `None`, `False`, `0`, `""`, `[]` and `{ }` are
falsy, everything else is truthy. -/
def PyValue.truthy : PyValue → Bool
  | .none => false
  | .bool b => b
  | .int n => n != 0
  | .str s => s != ""
  | .list xs => !xs.isEmpty
  | .dict fields => !fields.isEmpty

/-- A `fastapi.HTTPException`: an HTTP status code together with a
human-readable detail string. -/
structure HTTPException where
  status_code : Nat
  detail : String
deriving DecidableEq

/-- Outcome of calling a Python function: a normal return value, a raised
`HTTPException` (a pre-classified HTTP-style error), or any other raised
exception, carrying its message text. -/
inductive PyResult where
  | ok (v : PyValue)
  | httpExc (e : HTTPException)
  | exc (msg : String)

/-- Modelled from the spec: the authenticated user record resolved by the
authentication collaborator (`UserInDB`, `api/schemas/user.py` is outside
the provided sources).  The spec gives it a `user_id` plus further account
fields; `extra` stands for those unspecified fields. -/
structure UserInDB where
  user_id : Int
  extra : PyValue

/-- Modelled from the spec: `ConversationCreateRequest`
(`api/schemas/conversation.py` is outside the provided sources) —
`session_id` and `user_id` integers plus unspecified conversation content
fields, represented by `content`. -/
structure ConversationCreateRequest where
  session_id : Int
  user_id : Int
  content : PyValue

/-- Modelled from the spec: `ConversationUpdateRequest` — `session_id`,
`user_id`, a conversation identifier, plus unspecified updatable fields. -/
structure ConversationUpdateRequest where
  session_id : Int
  user_id : Int
  conversation_id : String
  content : PyValue

/-- Modelled from the spec: `ConversationResponse` — a UUID-formatted
conversation id, `session_id`, `user_id` and unspecified content fields.
Produced only by the service, never constructed by the router. -/
structure ConversationResponse where
  conversation_id : String
  session_id : Int
  user_id : Int
  content : PyValue

/-- The dict representation of a `ConversationResponse` as a dynamic
value, the shape the service hands back to the router. -/
def ConversationResponse.toPyValue (c : ConversationResponse) : PyValue :=
  .dict [("conversation_id", .str c.conversation_id),
         ("session_id", .int c.session_id),
         ("user_id", .int c.user_id),
         ("content", c.content)]

/-- Detail string of the 403 raised on an ownership mismatch
(lines 21–24 and 71–74 of the source). -/
def forbiddenDetail : String := "User ID does not match the authenticated user's ID"

/-- Detail string of the generic 500 raised by the catch-all branches. -/
def internalErrorDetail : String := "Internal server error"

/-- Handler `create_conversation` (source lines 16–32).  If the request's
`user_id` differs from the authenticated user's, it raises 403 before the
try block, so the service is not called.  Otherwise it calls
`create_conversation_service(request, current_user)`; the bare
`except Exception` catches every exception — `HTTPException` included —
and replaces it with a generic 500. -/
def create_conversation
    (create_conversation_service : ConversationCreateRequest → UserInDB → PyResult)
    (request : ConversationCreateRequest) (current_user : UserInDB) :
    PyResult × Bool :=
  if current_user.user_id ≠ request.user_id then
    (.httpExc ⟨403, forbiddenDetail⟩, false)
  else
    (match create_conversation_service request current_user with
     | .ok conversation => .ok conversation
     | .httpExc _ => .httpExc ⟨500, internalErrorDetail⟩
     | .exc _ => .httpExc ⟨500, internalErrorDetail⟩,
     true)

/-- Handler `get_session_conversations` (source lines 36–45): calls
`get_session_conversations_service(session_id, current_user.user_id)`,
returns its result, and collapses any exception to a generic 500. -/
def get_session_conversations
    (get_session_conversations_service : Int → Int → PyResult)
    (session_id : Int) (current_user : UserInDB) : PyResult × Bool :=
  (match get_session_conversations_service session_id current_user.user_id with
   | .ok conversations => .ok conversations
   | .httpExc _ => .httpExc ⟨500, internalErrorDetail⟩
   | .exc _ => .httpExc ⟨500, internalErrorDetail⟩,
   true)

/-- Handler `get_conversation_by_id` (source lines 49–62).  Inside the try
block it calls `get_conversations_service(str(conversation_id),
current_user.user_id)`; a falsy result triggers `raise HTTPException(404)`
from within the try block.  The first except clause re-raises any
`HTTPException` unchanged (including the router's own 404); the second
collapses everything else to a generic 500.  `conversation_id` is the
string form of the already-validated UUID path parameter. -/
def get_conversation_by_id
    (get_conversations_service : String → Int → PyResult)
    (conversation_id : String) (current_user : UserInDB) : PyResult × Bool :=
  let body : PyResult :=
    match get_conversations_service conversation_id current_user.user_id with
    | .ok conversation =>
        if !conversation.truthy then
          .httpExc ⟨404, "Conversation not found"⟩
        else
          .ok conversation
    | .httpExc e => .httpExc e
    | .exc msg => .exc msg
  (match body with
   | .ok conversation => .ok conversation
   | .httpExc e => .httpExc e
   | .exc _ => .httpExc ⟨500, internalErrorDetail⟩,
   true)

/-- Handler `update_conversation` (source lines 66–82): same ownership
check as `create_conversation` (403 raised before the try block), then
calls `update_conversation_service(request)` — note the service receives
only the request, not the authenticated user — and collapses any
exception to a generic 500. -/
def update_conversation
    (update_conversation_service : ConversationUpdateRequest → PyResult)
    (request : ConversationUpdateRequest) (current_user : UserInDB) :
    PyResult × Bool :=
  if current_user.user_id ≠ request.user_id then
    (.httpExc ⟨403, forbiddenDetail⟩, false)
  else
    (match update_conversation_service request with
     | .ok conversation => .ok conversation
     | .httpExc _ => .httpExc ⟨500, internalErrorDetail⟩
     | .exc _ => .httpExc ⟨500, internalErrorDetail⟩,
     true)

/-- Handler `get_latest_prd` (source lines 87–102):
`return await get_prd_service(user_id)` with no try/except and no
authenticated-user dependency — whatever the service returns or raises
propagates out of the handler unmodified. -/
def get_latest_prd (get_prd_service : Int → PyResult) (user_id : Int) :
    PyResult × Bool :=
  (get_prd_service user_id, true)

/-- The five handlers of the router, identified for the dispatch model. -/
inductive Handler where
  | createConversation
  | getSessionConversations
  | getConversationById
  | updateConversation
  | getLatestPrd
deriving DecidableEq

/-- Type of a path parameter, determining the conversion applied after a
route matches: `int` for `session_id : int`, `uuid` for
`conversation_id : uuid.UUID`. -/
inductive ParamTy where
  | int
  | uuid
deriving DecidableEq

/-- One segment of a route's path pattern: a literal segment or a typed
path parameter. -/
inductive Seg where
  | lit (s : String)
  | param (ty : ParamTy)
deriving DecidableEq

/-- An HTTP route: method, path pattern (split into segments, the router
prefix `conversations` included) and the handler it runs. -/
structure Route where
  method : String
  pattern : List Seg
  handler : Handler

/-- The router's routes in registration (source) order: `POST ""` at line
15, `GET "/session/(session_id)"` at line 35, `GET "/(conversation_id)"`
at line 48, `PUT ""` at line 65, `GET "/get_prd"` at line 86 — all under
the prefix `/conversations` declared at line 12. -/
def routes : List Route :=
  [⟨"POST", [.lit "conversations"], .createConversation⟩,
   ⟨"GET", [.lit "conversations", .lit "session", .param .int], .getSessionConversations⟩,
   ⟨"GET", [.lit "conversations", .param .uuid], .getConversationById⟩,
   ⟨"PUT", [.lit "conversations"], .updateConversation⟩,
   ⟨"GET", [.lit "conversations", .lit "get_prd"], .getLatestPrd⟩]

/-- Whether one pattern segment matches one path segment.  The framework
(FastAPI over Starlette) compiles a bare `(name)` path parameter to the
regex `[^/]+` regardless of its declared Python type, so a parameter
segment matches any non-empty path segment; the type is only checked
afterwards, during parameter conversion. -/
def segMatches : Seg → String → Bool
  | .lit s, seg => s == seg
  | .param _, seg => seg != ""

/-- Whether a route pattern matches a request path (as a list of
segments): same length and segment-wise match. -/
def patternMatches : List Seg → List String → Bool
  | [], [] => true
  | p :: ps, s :: ss => segMatches p s && patternMatches ps ss
  | _, _ => false

/-- Hexadecimal digit test, as accepted by Python's `int(s, 16)`. -/
def isHexChar (c : Char) : Bool :=
  c.isDigit || (Char.ofNat 97 ≤ c && c ≤ Char.ofNat 102)
    || (Char.ofNat 65 ≤ c && c ≤ Char.ofNat 70)

/-- Removal of every occurrence of `urn:` from a character list, as
Python's `s.replace("urn:", "")` does (left to right, resuming after each
removed occurrence). -/
def removeUrnTag : List Char → List Char
  | 'u' :: 'r' :: 'n' :: ':' :: rest => removeUrnTag rest
  | c :: rest => c :: removeUrnTag rest
  | [] => []

/-- Removal of every occurrence of `uuid:` from a character list, as
Python's `s.replace("uuid:", "")` does. -/
def removeUuidTag : List Char → List Char
  | 'u' :: 'u' :: 'i' :: 'd' :: ':' :: rest => removeUuidTag rest
  | c :: rest => c :: removeUuidTag rest
  | [] => []

/-- Whether a string is accepted by Python's `uuid.UUID(s)` constructor,
which pydantic uses to convert the `conversation_id : uuid.UUID` path
parameter.  Python removes the substrings `urn:` and `uuid:`, strips
surrounding braces, deletes hyphens, and requires exactly 32 hexadecimal
digits. -/
def isValidUUID (s : String) : Bool :=
  let t := removeUuidTag (removeUrnTag s.toList)
  let lb := Char.ofNat 123
  let rb := Char.ofNat 125
  let chars := t.dropWhile (fun c => c == lb || c == rb)
  let chars := (chars.reverse.dropWhile (fun c => c == lb || c == rb)).reverse
  let digits := chars.filter (fun c => c != Char.ofNat 45)
  digits.length == 32 && digits.all isHexChar

/-- Whether a string is accepted as an `int` path parameter (an optional
sign followed by at least one decimal digit). -/
def isValidInt (s : String) : Bool :=
  match s.toList with
  | [] => false
  | c :: cs =>
      if c == Char.ofNat 45 || c == Char.ofNat 43 then
        !cs.isEmpty && cs.all Char.isDigit
      else
        (c :: cs).all Char.isDigit

/-- Whether every path parameter of a matched pattern converts to its
declared type. -/
def paramsConvert : List Seg → List String → Bool
  | [], _ => true
  | _, [] => true
  | .lit _ :: ps, _ :: ss => paramsConvert ps ss
  | .param .int :: ps, s :: ss => isValidInt s && paramsConvert ps ss
  | .param .uuid :: ps, s :: ss => isValidUUID s && paramsConvert ps ss

/-- Outcome of dispatching a request: a handler runs, or the matched
route's parameter conversion fails and the framework answers 422
Unprocessable Entity without running any handler. -/
inductive Dispatch where
  | run (h : Handler)
  | validationError (status_code : Nat)
deriving DecidableEq

/-- Route resolution as the framework performs it: scan the routes in
registration order, take the first whose method and pattern match, then
convert its path parameters; a conversion failure yields 422 and no
handler runs.  Later routes are never consulted once one matches. -/
def resolve (method : String) (path : List String) : Option Dispatch :=
  match routes.find? (fun r => r.method == method && patternMatches r.pattern path) with
  | some r =>
      if paramsConvert r.pattern path then some (.run r.handler)
      else some (.validationError 422)
  | none => none

/-- C1: for every create-conversation and every update-conversation request
whose `user_id` differs from the authenticated caller's `user_id`, the
handler responds 403 Forbidden and the corresponding service
(`create_conversation_service` / `update_conversation_service`) is never
invoked. -/
theorem c1_mismatch_forbidden_service_not_invoked
    (csvc : ConversationCreateRequest → UserInDB → PyResult)
    (usvc : ConversationUpdateRequest → PyResult)
    (creq : ConversationCreateRequest) (ureq : ConversationUpdateRequest)
    (u : UserInDB)
    (hc : creq.user_id ≠ u.user_id) (hu : ureq.user_id ≠ u.user_id) :
    create_conversation csvc creq u = (.httpExc ⟨403, forbiddenDetail⟩, false) ∧
    update_conversation usvc ureq u = (.httpExc ⟨403, forbiddenDetail⟩, false) := by
  constructor
  · unfold create_conversation
    rw [if_pos (Ne.symm hc)]
  · unfold update_conversation
    rw [if_pos (Ne.symm hu)]

/-- Witness for C1 at a concrete input: request user 7 authenticated as
user 9 on both operations. -/
theorem c1_witness :
    create_conversation (fun _ _ => .ok .none) ⟨42, 7, .none⟩ ⟨9, .none⟩
        = (.httpExc ⟨403, forbiddenDetail⟩, false) ∧
    update_conversation (fun _ => .ok .none) ⟨42, 7, "uuid-1", .none⟩ ⟨9, .none⟩
        = (.httpExc ⟨403, forbiddenDetail⟩, false) :=
  c1_mismatch_forbidden_service_not_invoked _ _ _ _ _ (by decide) (by decide)

/-- C2: for every integer `user_id`, the get-latest-PRD handler's response
is exactly the outcome of `get_prd_service user_id` — value or failure,
classified or not, it is passed through with no validation against an
authenticated caller (the handler takes none) and no try/except wrapping. -/
theorem c2_get_prd_pure_delegation (get_prd_service : Int → PyResult)
    (user_id : Int) :
    get_latest_prd get_prd_service user_id = (get_prd_service user_id, true) :=
  rfl

/-- C3: for every create-conversation and update-conversation request whose
`user_id` equals the authenticated caller's, if the service returns
normally then the handler's response is exactly the service's value. -/
theorem c3_match_success_verbatim
    (csvc : ConversationCreateRequest → UserInDB → PyResult)
    (usvc : ConversationUpdateRequest → PyResult)
    (creq : ConversationCreateRequest) (ureq : ConversationUpdateRequest)
    (u : UserInDB) (v w : PyValue)
    (hc : u.user_id = creq.user_id) (hcs : csvc creq u = .ok v)
    (hu : u.user_id = ureq.user_id) (hus : usvc ureq = .ok w) :
    create_conversation csvc creq u = (.ok v, true) ∧
    update_conversation usvc ureq u = (.ok w, true) := by
  constructor
  · unfold create_conversation
    rw [if_neg (not_not_intro hc), hcs]
  · unfold update_conversation
    rw [if_neg (not_not_intro hu), hus]

/-- Witness for C3: user 7 creating and updating in session 42, the
services returning concrete conversation dicts. -/
theorem c3_witness :
    create_conversation
        (fun _ _ => .ok (ConversationResponse.toPyValue ⟨"uuid-1", 42, 7, .none⟩))
        ⟨42, 7, .none⟩ ⟨7, .none⟩
      = (.ok (ConversationResponse.toPyValue ⟨"uuid-1", 42, 7, .none⟩), true) ∧
    update_conversation
        (fun _ => .ok (ConversationResponse.toPyValue ⟨"uuid-1", 42, 7, .str "edited"⟩))
        ⟨42, 7, "uuid-1", .str "edited"⟩ ⟨7, .none⟩
      = (.ok (ConversationResponse.toPyValue ⟨"uuid-1", 42, 7, .str "edited"⟩), true) :=
  c3_match_success_verbatim _ _ _ _ _ _ _ rfl rfl rfl rfl

/-- C4: in the get-conversation-by-id handler, a service call returning
absence (`None`) yields 404 Not Found, and a service call returning a
conversation value yields exactly that value. -/
theorem c4_absent_404_value_passthrough
    (svcAbsent svcFound : String → Int → PyResult)
    (cid : String) (u : UserInDB) (c : ConversationResponse)
    (h₁ : svcAbsent cid u.user_id = .ok .none)
    (h₂ : svcFound cid u.user_id = .ok c.toPyValue) :
    (get_conversation_by_id svcAbsent cid u).fst
        = .httpExc ⟨404, "Conversation not found"⟩ ∧
    get_conversation_by_id svcFound cid u = (.ok c.toPyValue, true) := by
  constructor
  · unfold get_conversation_by_id
    rw [h₁]
    rfl
  · unfold get_conversation_by_id
    rw [h₂]
    simp [ConversationResponse.toPyValue, PyValue.truthy]

/-- Witness for C4: one service that has no conversation for `uuid-x`, one
that returns a concrete conversation. -/
theorem c4_witness :
    (get_conversation_by_id (fun _ _ => .ok .none) "uuid-x" ⟨7, .none⟩).fst
        = .httpExc ⟨404, "Conversation not found"⟩ ∧
    get_conversation_by_id
        (fun _ _ => .ok (ConversationResponse.toPyValue ⟨"uuid-x", 42, 7, .none⟩))
        "uuid-x" ⟨7, .none⟩
      = (.ok (ConversationResponse.toPyValue ⟨"uuid-x", 42, 7, .none⟩), true) :=
  c4_absent_404_value_passthrough _ _ _ _ _ rfl rfl

/-- C5: for get-conversation-by-id and get-latest-PRD, a pre-classified
HTTP-style error raised by the service is re-raised with status and detail
unchanged, not wrapped into a generic 500. -/
theorem c5_classified_passthrough
    (gsvc : String → Int → PyResult) (psvc : Int → PyResult)
    (cid : String) (u : UserInDB) (uid : Int) (e₁ e₂ : HTTPException)
    (h₁ : gsvc cid u.user_id = .httpExc e₁)
    (h₂ : psvc uid = .httpExc e₂) :
    (get_conversation_by_id gsvc cid u).fst = .httpExc e₁ ∧
    (get_latest_prd psvc uid).fst = .httpExc e₂ := by
  constructor
  · unfold get_conversation_by_id
    rw [h₁]
  · unfold get_latest_prd
    rw [h₂]

/-- Witness for C5: services raising 404 errors with specific details; the
handlers surface those exact errors. -/
theorem c5_witness :
    (get_conversation_by_id (fun _ _ => .httpExc ⟨404, "gone"⟩) "uuid-x" ⟨7, .none⟩).fst
        = .httpExc ⟨404, "gone"⟩ ∧
    (get_latest_prd (fun _ => .httpExc ⟨404, "no PRD"⟩) 5).fst
        = .httpExc ⟨404, "no PRD"⟩ :=
  c5_classified_passthrough _ _ _ _ _ _ _ rfl rfl

/-- C6 counterexample: the claim says every one of the five operations
answers an unclassified service error with a generic 500, but the
get-latest-PRD handler has no try/except: with a service raising an
unclassified error at `user_id = 5`, the handler's outcome is the raw
propagated exception, not the generic 500 response. -/
theorem c6_counterexample :
    (get_latest_prd (fun _ => .exc "database connection lost") 5).fst
        = PyResult.exc "database connection lost" ∧
    (get_latest_prd (fun _ => .exc "database connection lost") 5).fst
        ≠ PyResult.httpExc ⟨500, internalErrorDetail⟩ :=
  ⟨rfl, fun h => PyResult.noConfusion h⟩

/-- C6 amended: for the four operations wrapped in a try/except (create,
list-for-session, get-by-id, update), an unclassified service error yields
a 500 whose detail is the fixed generic string — no text from the original
exception appears, since the response is the same constant for every
message.  The get-latest-PRD handler performs no wrapping of its own and
propagates the unclassified error unchanged. -/
theorem c6_amended_unclassified_500
    (csvc : ConversationCreateRequest → UserInDB → PyResult)
    (ssvc : Int → Int → PyResult)
    (gsvc : String → Int → PyResult)
    (usvc : ConversationUpdateRequest → PyResult)
    (psvc : Int → PyResult)
    (creq : ConversationCreateRequest) (ureq : ConversationUpdateRequest)
    (sid : Int) (cid : String) (uid : Int) (u : UserInDB)
    (m₁ m₂ m₃ m₄ m₅ : String)
    (hcu : u.user_id = creq.user_id) (huu : u.user_id = ureq.user_id)
    (h₁ : csvc creq u = .exc m₁)
    (h₂ : ssvc sid u.user_id = .exc m₂)
    (h₃ : gsvc cid u.user_id = .exc m₃)
    (h₄ : usvc ureq = .exc m₄)
    (h₅ : psvc uid = .exc m₅) :
    create_conversation csvc creq u = (.httpExc ⟨500, internalErrorDetail⟩, true) ∧
    get_session_conversations ssvc sid u = (.httpExc ⟨500, internalErrorDetail⟩, true) ∧
    (get_conversation_by_id gsvc cid u).fst = .httpExc ⟨500, internalErrorDetail⟩ ∧
    update_conversation usvc ureq u = (.httpExc ⟨500, internalErrorDetail⟩, true) ∧
    (get_latest_prd psvc uid).fst = .exc m₅ := by
  refine ⟨?_, ?_, ?_, ?_, ?_⟩
  · unfold create_conversation
    rw [if_neg (not_not_intro hcu), h₁]
  · unfold get_session_conversations
    rw [h₂]
  · unfold get_conversation_by_id
    rw [h₃]
  · unfold update_conversation
    rw [if_neg (not_not_intro huu), h₄]
  · unfold get_latest_prd
    rw [h₅]

/-- Witness for the amended C6: user 7, services raising distinct
unclassified errors in all five operations. -/
theorem c6_witness :
    create_conversation (fun _ _ => .exc "e1") ⟨42, 7, .none⟩ ⟨7, .none⟩
        = (.httpExc ⟨500, internalErrorDetail⟩, true) ∧
    get_session_conversations (fun _ _ => .exc "e2") 42 ⟨7, .none⟩
        = (.httpExc ⟨500, internalErrorDetail⟩, true) ∧
    (get_conversation_by_id (fun _ _ => .exc "e3") "uuid-x" ⟨7, .none⟩).fst
        = .httpExc ⟨500, internalErrorDetail⟩ ∧
    update_conversation (fun _ => .exc "e4") ⟨42, 7, "uuid-x", .none⟩ ⟨7, .none⟩
        = (.httpExc ⟨500, internalErrorDetail⟩, true) ∧
    (get_latest_prd (fun _ => .exc "e5") 5).fst = .exc "e5" :=
  c6_amended_unclassified_500 _ _ _ _ _ _ _ 42 "uuid-x" 5 _ _ _ _ _ _
    rfl rfl rfl rfl rfl rfl rfl

/-- C7: the claim says `GET /conversations/get_prd` is dispatched to the
get-latest-PRD operation and never handled by the get-conversation-by-id
route.  Evaluating the route table at that request shows the opposite: the
first matching route is `GET /conversations/(conversation_id)` (registered
earlier; its parameter pattern matches the literal segment `get_prd`), its
UUID conversion of `get_prd` fails, and the framework answers 422 without
ever running `get_latest_prd`. -/
theorem c7_get_prd_route_shadowed :
    resolve "GET" ["conversations", "get_prd"] = some (.validationError 422) ∧
    (routes.find? (fun r =>
        r.method == "GET" && patternMatches r.pattern ["conversations", "get_prd"])).map
        Route.handler = some Handler.getConversationById ∧
    isValidUUID "get_prd" = false := by
  refine ⟨?_, ?_, ?_⟩ <;> decide

/-- C8: the absence test in get-conversation-by-id is Python falsiness:
whatever falsy value the service returns — `None`, an empty dict, an empty
list, `0`, the empty string — the handler answers 404, not only on a
literal `None`. -/
theorem c8_falsy_404
    (gsvc : String → Int → PyResult) (cid : String) (u : UserInDB)
    (v : PyValue)
    (h : gsvc cid u.user_id = .ok v) (hf : v.truthy = false) :
    get_conversation_by_id gsvc cid u
        = (.httpExc ⟨404, "Conversation not found"⟩, true) := by
  unfold get_conversation_by_id
  rw [h]
  simp [hf]

/-- Witness for C8 at a non-`None` falsy value: the service returns an
empty dict, which is falsy though not absent, and the handler answers
404. -/
theorem c8_witness :
    PyValue.truthy (.dict []) = false ∧
    get_conversation_by_id (fun _ _ => .ok (.dict [])) "uuid-x" ⟨7, .none⟩
        = (.httpExc ⟨404, "Conversation not found"⟩, true) :=
  ⟨rfl, c8_falsy_404 _ _ _ _ rfl rfl⟩

/-- C9: the update handler passes only the request to
`update_conversation_service`, so its outcome depends on the authenticated
user only through `user_id`: two callers with equal `user_id` but
arbitrarily different other account data observe identical results on the
same request. -/
theorem c9_update_depends_only_on_request
    (usvc : ConversationUpdateRequest → PyResult)
    (req : ConversationUpdateRequest) (u₁ u₂ : UserInDB)
    (h : u₁.user_id = u₂.user_id) :
    update_conversation usvc req u₁ = update_conversation usvc req u₂ := by
  unfold update_conversation
  rw [h]

/-- Witness for C9: two users who share `user_id = 7` but differ in their
other account fields get the same response to the same update request. -/
theorem c9_witness :
    update_conversation (fun _ => .ok (.str "updated")) ⟨42, 7, "uuid-1", .none⟩
        ⟨7, .str "alice"⟩
      = update_conversation (fun _ => .ok (.str "updated")) ⟨42, 7, "uuid-1", .none⟩
        ⟨7, .str "bob"⟩ :=
  c9_update_depends_only_on_request _ _ _ _ rfl

/-- C10: the 404 the router raises inside the try block for an absent
conversation is re-raised unchanged by the `except HTTPException` branch:
when the service returns absence the client observes exactly 404, never
the catch-all generic 500. -/
theorem c10_absent_404_never_500
    (gsvc : String → Int → PyResult) (cid : String) (u : UserInDB)
    (h : gsvc cid u.user_id = .ok .none) :
    (get_conversation_by_id gsvc cid u).fst
        = .httpExc ⟨404, "Conversation not found"⟩ ∧
    (get_conversation_by_id gsvc cid u).fst
        ≠ .httpExc ⟨500, internalErrorDetail⟩ := by
  have h404 : (get_conversation_by_id gsvc cid u).fst
      = .httpExc ⟨404, "Conversation not found"⟩ := by
    unfold get_conversation_by_id
    rw [h]
    rfl
  refine ⟨h404, ?_⟩
  rw [h404]
  intro hEq
  have := congrArg (fun r => match r with | PyResult.httpExc e => e.status_code | _ => 0) hEq
  simp at this

/-- Witness for C10: a service with no conversation for `uuid-x`; the
response is the 404, and is not the generic 500. -/
theorem c10_witness :
    (get_conversation_by_id (fun _ _ => .ok .none) "uuid-x" ⟨7, .none⟩).fst
        = .httpExc ⟨404, "Conversation not found"⟩ ∧
    (get_conversation_by_id (fun _ _ => .ok .none) "uuid-x" ⟨7, .none⟩).fst
        ≠ .httpExc ⟨500, internalErrorDetail⟩ :=
  c10_absent_404_never_500 _ _ _ rfl
